import Mathlib

/-!
Verification of the droid-agent-sdk session transport layer.

This file gives a shallow embedding, in Lean 4, of the Python modules
`protocol.py`, `events.py`, `transport.py`, `session.py` and `swarm.py` of
the droid-agent-sdk repository, and proves (or refutes) the specification
claims about them.

Modelling conventions:
- Python JSON values are the inductive `Json`; `json.loads` is the fueled
  parser `pyLoads`, which returns `none` where Python raises
  `json.JSONDecodeError` (the parser accepts the integer/string/object
  fragment of JSON actually exchanged by this program; floats are out of
  scope).
- Raw text is `List Char`; structured names and keys are `String`.
- Fallible Python code is embedded in `Except PyErr`; an uncaught Python
  exception is an `Except.error`.
- `time.time() * 1000` is an explicit `nowMs : Nat` parameter.
- The filesystem is a partial map from path to entry (for
  `FIFOTransport.create`); process side effects (Popen, SIGTERM) are
  outside the model and noted where relevant.
-/

namespace DroidSDK

/-- Python exception classes that the embedded code can raise.
`sessionStartError` models the `SessionError` raised by `DroidSession.start`
(the spec calls it SessionStartError); the others keep their names. -/
inductive PyErr where
  | typeError : PyErr
  | keyError : PyErr
  | attributeError : PyErr
  | valueError : PyErr
  deriving DecidableEq, Repr

/-- A JSON value, as produced by `json.loads`: the carrier for every
parameter mapping, result mapping and notification payload. -/
inductive Json where
  | null : Json
  | bool (b : Bool) : Json
  | num (n : Int) : Json
  | str (s : String) : Json
  | arr (xs : List Json) : Json
  | obj (fields : List (String × Json)) : Json

mutual

/-- Structural equality of JSON values: the model of Python `==` on values
returned by `json.loads`. -/
def Json.beq : Json → Json → Bool
  | .null, .null => true
  | .bool a, .bool b => a == b
  | .num a, .num b => a == b
  | .str a, .str b => a == b
  | .arr xs, .arr ys => Json.beqList xs ys
  | .obj xs, .obj ys => Json.beqObj xs ys
  | _, _ => false

/-- Elementwise `Json.beq` on lists (Python `==` on two JSON arrays). -/
def Json.beqList : List Json → List Json → Bool
  | [], [] => true
  | x :: xs, y :: ys => Json.beq x y && Json.beqList xs ys
  | _, _ => false

/-- Fieldwise `Json.beq` on objects (Python `==` on two JSON objects whose
keys are in the same order). -/
def Json.beqObj : List (String × Json) → List (String × Json) → Bool
  | [], [] => true
  | (k, v) :: xs, (l, w) :: ys => k == l && Json.beq v w && Json.beqObj xs ys
  | _, _ => false

end

/-- Substring test on raw text (Python `needle in line` for strings). -/
def containsSub (needle : List Char) : List Char → Bool
  | [] => needle.isEmpty
  | c :: rest => needle.isPrefixOf (c :: rest) || containsSub needle rest

/-- First binding of key `k` in a parsed JSON object (`json.loads` yields
objects with unique keys, so first and last occurrence agree). -/
def jLookup (fields : List (String × Json)) (k : String) : Option Json :=
  match fields with
  | [] => none
  | (k1, v) :: rest => if k1 = k then some v else jLookup rest k

/-- Python `dict.get(k, d)` on a parsed JSON object. -/
def jLookupD (fields : List (String × Json)) (k : String) (d : Json) : Json :=
  (jLookup fields k).getD d

/-- Python truthiness of a JSON value (`bool(v)`), used by the
`if not self.session_id` check in `DroidSession.start`. -/
def pyTruthy : Json → Bool
  | .null => false
  | .bool b => b
  | .num n => n != 0
  | .str s => s.length != 0
  | .arr xs => !xs.isEmpty
  | .obj fields => !fields.isEmpty

/-- Python `needle in v` for a string needle and a JSON value `v`:
key membership for objects, element membership for arrays, substring test
for strings, and an uncaught `TypeError` for every other value. -/
def pyContainsKey (needle : String) : Json → Except PyErr Bool
  | .obj fields => .ok (fields.any (fun kv => kv.1 = needle))
  | .arr xs => .ok (xs.any (fun x => Json.beq x (Json.str needle)))
  | .str s => .ok (containsSub needle.toList s.toList)
  | _ => .error .typeError

/-- Python `v[k]` for a string key `k`: object field access (KeyError when
absent), and an uncaught `TypeError` for arrays, strings and scalars. -/
def pySubscript (v : Json) (k : String) : Except PyErr Json :=
  match v with
  | .obj fields =>
    match jLookup fields k with
    | some w => .ok w
    | none => .error .keyError
  | _ => .error .typeError

/-- Python `v.get(k, d)` for a string key: defaulting field access on an
object, and an uncaught `AttributeError` on every non-object value. -/
def pyGetD (v : Json) (k : String) (d : Json) : Except PyErr Json :=
  match v with
  | .obj fields => .ok (jLookupD fields k d)
  | _ => .error .attributeError

/-- Whitespace accepted by the JSON grammar between tokens. -/
def jsonWs (c : Char) : Bool :=
  c = ' ' || c = '\t' || c = '\n' || c = '\r'

/-- Decimal digit test for the JSON number grammar. -/
def jsonDigit (c : Char) : Bool :=
  ('0').toNat ≤ c.toNat && c.toNat ≤ ('9').toNat

/-- Value of one hexadecimal digit, for `\u` string escapes. -/
def hexVal (c : Char) : Option Nat :=
  if jsonDigit c then some (c.toNat - ('0').toNat)
  else if ('a').toNat ≤ c.toNat && c.toNat ≤ ('f').toNat then
    some (c.toNat - ('a').toNat + 10)
  else if ('A').toNat ≤ c.toNat && c.toNat ≤ ('F').toNat then
    some (c.toNat - ('A').toNat + 10)
  else none

/-- Body of a JSON string literal after the opening quote: returns the
decoded characters and the input after the closing quote. Control
characters are rejected as in Python's strict mode. -/
def parseStrBody : Nat → List Char → Option (List Char × List Char)
  | 0, _ => none
  | fuel + 1, cs =>
    match cs with
    | [] => none
    | '"' :: rest => some ([], rest)
    | '\\' :: e :: rest =>
      let dec : Option (Char × List Char) :=
        if e = '"' then some ('"', rest)
        else if e = '\\' then some ('\\', rest)
        else if e = '/' then some ('/', rest)
        else if e = 'n' then some ('\n', rest)
        else if e = 't' then some ('\t', rest)
        else if e = 'r' then some ('\r', rest)
        else if e = 'b' then some ('\x08', rest)
        else if e = 'f' then some ('\x0c', rest)
        else if e = 'u' then
          match rest with
          | h1 :: h2 :: h3 :: h4 :: rest2 =>
            match hexVal h1, hexVal h2, hexVal h3, hexVal h4 with
            | some a, some b, some c, some d =>
              some (Char.ofNat (((a * 16 + b) * 16 + c) * 16 + d), rest2)
            | _, _, _, _ => none
          | _ => none
        else none
      match dec with
      | none => none
      | some (c, rest2) =>
        match parseStrBody fuel rest2 with
        | none => none
        | some (body, rest3) => some (c :: body, rest3)
    | c :: rest =>
      if c.toNat < 32 then none
      else
        match parseStrBody fuel rest with
        | none => none
        | some (body, rest2) => some (c :: body, rest2)

/-- A JSON integer literal: optional minus sign, digits, no leading zero. -/
def parseIntLit (cs : List Char) : Option (Int × List Char) :=
  let core : List Char → Option (Nat × List Char) := fun ds =>
    let digits := ds.takeWhile jsonDigit
    match digits with
    | [] => none
    | d :: more =>
      if d = '0' ∧ more ≠ [] then none
      else
        some (digits.foldl (fun a c => a * 10 + (c.toNat - ('0').toNat)) 0,
              ds.drop digits.length)
  match cs with
  | '-' :: rest =>
    match core rest with
    | some (n, rest2) => some (-(n : Int), rest2)
    | none => none
  | _ =>
    match core cs with
    | some (n, rest2) => some ((n : Int), rest2)
    | none => none

mutual

/-- One JSON value at the head of the input (fueled recursive-descent
embedding of the grammar `json.loads` accepts, minus floats). -/
def parseVal : Nat → List Char → Option (Json × List Char)
  | 0, _ => none
  | fuel + 1, cs =>
    match cs.dropWhile jsonWs with
    | [] => none
    | c :: rest =>
      if c = '\x7b' then
        parseObjFields fuel (rest.dropWhile jsonWs) []
      else if c = '[' then
        parseArrItems fuel (rest.dropWhile jsonWs) []
      else if c = '"' then
        match parseStrBody (rest.length + 1) rest with
        | some (body, rest2) => some (Json.str (String.mk body), rest2)
        | none => none
      else if c = 't' then
        match rest with
        | 'r' :: 'u' :: 'e' :: rest2 => some (Json.bool true, rest2)
        | _ => none
      else if c = 'f' then
        match rest with
        | 'a' :: 'l' :: 's' :: 'e' :: rest2 => some (Json.bool false, rest2)
        | _ => none
      else if c = 'n' then
        match rest with
        | 'u' :: 'l' :: 'l' :: rest2 => some (Json.null, rest2)
        | _ => none
      else
        match parseIntLit (c :: rest) with
        | some (n, rest2) => some (Json.num n, rest2)
        | none => none

/-- Members of a JSON object after the opening brace (accumulator holds
the members already read, in order). -/
def parseObjFields : Nat → List Char → List (String × Json) →
    Option (Json × List Char)
  | 0, _, _ => none
  | fuel + 1, cs, acc =>
    match cs with
    | '\x7d' :: rest => some (Json.obj acc.reverse, rest)
    | '"' :: rest =>
      match parseStrBody (rest.length + 1) rest with
      | none => none
      | some (key, rest2) =>
        match rest2.dropWhile jsonWs with
        | ':' :: rest3 =>
          match parseVal fuel (rest3.dropWhile jsonWs) with
          | none => none
          | some (v, rest4) =>
            match rest4.dropWhile jsonWs with
            | ',' :: rest5 =>
              match (rest5.dropWhile jsonWs) with
              | '"' :: rest6 =>
                parseObjFields fuel ('"' :: rest6)
                  ((String.mk key, v) :: acc)
              | _ => none
            | '\x7d' :: rest5 =>
              some (Json.obj (((String.mk key, v) :: acc).reverse), rest5)
            | _ => none
        | _ => none
    | _ => none

/-- Items of a JSON array after the opening bracket. -/
def parseArrItems : Nat → List Char → List Json → Option (Json × List Char)
  | 0, _, _ => none
  | fuel + 1, cs, acc =>
    match cs with
    | ']' :: rest => some (Json.arr acc.reverse, rest)
    | _ =>
      match parseVal fuel cs with
      | none => none
      | some (v, rest) =>
        match rest.dropWhile jsonWs with
        | ',' :: rest2 => parseArrItems fuel (rest2.dropWhile jsonWs) (v :: acc)
        | ']' :: rest2 => some (Json.arr ((v :: acc).reverse), rest2)
        | _ => none

end

/-- Embedding of `json.loads` on one line of text: `some v` when the whole
line is one JSON value (with surrounding whitespace), `none` where Python
raises `json.JSONDecodeError`. -/
def pyLoads (cs : List Char) : Option Json :=
  match parseVal (2 * cs.length + 8) cs with
  | none => none
  | some (v, rest) =>
    if (rest.dropWhile jsonWs).isEmpty then some v else none

/-!
Embedding of `protocol.py`.
-/

/-- Decimal digits of a natural number, most significant first, by fueled
division (the fuel argument only needs to exceed the number). -/
def decimalRepAux : Nat → Nat → List Char
  | 0, _ => []
  | fuel + 1, n =>
    if n < 10 then [Nat.digitChar n]
    else decimalRepAux fuel (n / 10) ++ [Nat.digitChar (n % 10)]

/-- Decimal text of a natural number, as Python `str`/f-string formatting
prints a non-negative int. -/
def decimalRep (n : Nat) : List Char :=
  decimalRepAux (n + 1) n

/-- Numeric value of a decimal digit string (proof device used to show
`decimalRep` injective). -/
def decVal (ds : List Char) : Nat :=
  ds.foldl (fun a c => a * 10 + (c.toNat - ('0').toNat)) 0

/-- Default correlation id of `JsonRpcRequest`: the embedding of
`f"req-\x7bint(time.time() * 1000)\x7d"`, at the millisecond clock value
`nowMs` current when the request is constructed. -/
def defaultRequestId (nowMs : Nat) : String :=
  String.mk (("req-").toList ++ decimalRep nowMs)

/-- A JSON-RPC request (`JsonRpcRequest` dataclass): method name,
parameter mapping and correlation id. -/
structure JsonRpcRequest where
  method : String
  params : List (String × Json)
  id : String

/-- Constructor `initialize_session_request` (fixed id `init`). -/
def initialize_session_request (machine_id cwd : String) : JsonRpcRequest :=
  { method := "droid.initialize_session"
    params := [("machineId", Json.str machine_id), ("cwd", Json.str cwd)]
    id := "init" }

/-- Constructor `load_session_request` (fixed id `load`). -/
def load_session_request (session_id : String) : JsonRpcRequest :=
  { method := "droid.load_session"
    params := [("sessionId", Json.str session_id)]
    id := "load" }

/-- Constructor `interrupt_session_request` (fixed id `interrupt`). -/
def interrupt_session_request : JsonRpcRequest :=
  { method := "droid.interrupt_session", params := [], id := "interrupt" }

/-- Constructor `update_session_settings_request` (fixed id `settings`). -/
def update_session_settings_request (auto_mode model : Option String) :
    JsonRpcRequest :=
  { method := "droid.update_session_settings"
    params :=
      (match auto_mode with
       | some a => [("autoMode", Json.str a)]
       | none => []) ++
      (match model with
       | some m => [("model", Json.str m)]
       | none => [])
    id := "settings" }

/-- Constructor `add_user_message_request`: the only request class that
uses the default, clock-derived correlation id. -/
def add_user_message_request (nowMs : Nat) (text : String) : JsonRpcRequest :=
  { method := "droid.add_user_message"
    params := [("text", Json.str text)]
    id := defaultRequestId nowMs }

/-- Constructor `request_permission_request` (id keyed by tool name). -/
def request_permission_request (tool_name action : String) (remember : Bool) :
    JsonRpcRequest :=
  { method := "droid.request_permission"
    params := [("toolName", Json.str tool_name), ("action", Json.str action),
               ("remember", Json.bool remember)]
    id := String.mk (("perm-").toList ++ tool_name.toList) }

/-- A JSON-RPC response (`JsonRpcResponse` dataclass). The `id` field is
whatever JSON value the wire carried (Python does not enforce `str`). -/
structure JsonRpcResponse where
  id : Json
  result : Option Json
  error : Option Json

/-- Classmethod `JsonRpcResponse.from_json` on an already-parsed object. -/
def JsonRpcResponse.from_json (fields : List (String × Json)) :
    JsonRpcResponse :=
  { id := jLookupD fields ("id") (Json.str "")
    result := jLookup fields ("result")
    error := jLookup fields ("error") }

/-- A JSON-RPC notification (`JsonRpcNotification` dataclass). -/
structure JsonRpcNotification where
  method : Json
  params : Json

/-- Classmethod `JsonRpcNotification.from_json` on a parsed object. -/
def JsonRpcNotification.from_json (fields : List (String × Json)) :
    JsonRpcNotification :=
  { method := jLookupD fields ("method") (Json.str "")
    params := jLookupD fields ("params") (Json.obj []) }

/-- Result alternatives of `parse_message`. -/
inductive PyMsg where
  | response (r : JsonRpcResponse) : PyMsg
  | notification (n : JsonRpcNotification) : PyMsg

/-- Embedding of `parse_message`: `json.loads` the line (a decode error is
caught and yields `none`), then dispatch on the `type` discriminator.
`data.get("type")` is an uncaught `AttributeError` when the line is valid
JSON but not an object. -/
def parse_message (line : List Char) : Except PyErr (Option PyMsg) :=
  match pyLoads line with
  | none => .ok none
  | some (Json.obj fields) =>
    match jLookup fields ("type") with
    | some (Json.str s) =>
      if s = "response" then
        .ok (some (PyMsg.response (JsonRpcResponse.from_json fields)))
      else if s = "notification" then
        .ok (some (PyMsg.notification (JsonRpcNotification.from_json fields)))
      else .ok none
    | _ => .ok none
  | some _ => .error .attributeError

/-!
Embedding of `events.py`.
-/

/-- The closed vocabulary of event kinds (`EventType` enum). -/
inductive EventType where
  | session_initialized : EventType
  | session_loaded : EventType
  | state_changed : EventType
  | message_created : EventType
  | title_updated : EventType
  | thinking_delta : EventType
  | text_delta : EventType
  | tool_call : EventType
  | tool_result : EventType
  | mcp_status : EventType
  | complete : EventType
  | error : EventType
  | unknown : EventType
  deriving DecidableEq, Repr

/-- Wire value of each `EventType` enum member. -/
def EventType.wire : EventType → String
  | .session_initialized => "session_initialized"
  | .session_loaded => "session_loaded"
  | .state_changed => "droid_working_state_changed"
  | .message_created => "create_message"
  | .title_updated => "session_title_updated"
  | .thinking_delta => "thinking_text_delta"
  | .text_delta => "assistant_text_delta"
  | .tool_call => "tool_call"
  | .tool_result => "tool_result"
  | .mcp_status => "mcp_status_changed"
  | .complete => "complete"
  | .error => "error"
  | .unknown => "unknown"

/-- Enum lookup by value, `EventType(s)`: `some` member on a vocabulary
value, `none` where Python raises `ValueError`. -/
def eventTypeOfString (s : String) : Option EventType :=
  if s = "session_initialized" then some .session_initialized
  else if s = "session_loaded" then some .session_loaded
  else if s = "droid_working_state_changed" then some .state_changed
  else if s = "create_message" then some .message_created
  else if s = "session_title_updated" then some .title_updated
  else if s = "thinking_text_delta" then some .thinking_delta
  else if s = "assistant_text_delta" then some .text_delta
  else if s = "tool_call" then some .tool_call
  else if s = "tool_result" then some .tool_result
  else if s = "mcp_status_changed" then some .mcp_status
  else if s = "complete" then some .complete
  else if s = "error" then some .error
  else if s = "unknown" then some .unknown
  else none

/-- A classified event: kind plus the raw notification payload. -/
structure Event where
  type : EventType
  data : Json

/-- Classmethod `Event.from_notification` on a notification payload that
is an object: read the `type` tag (default `"unknown"`), fall back to the
unknown kind when the enum lookup raises `ValueError` (or when the tag is
not a string), and keep the raw payload. -/
def eventFromObj (fields : List (String × Json)) : Event :=
  { type :=
      match jLookupD fields ("type") (Json.str "unknown") with
      | Json.str s => (eventTypeOfString s).getD .unknown
      | _ => .unknown
    data := Json.obj fields }

/-- Classmethod `Event.from_notification` on an arbitrary payload value:
`notification.get` is an uncaught `AttributeError` when the payload is not
an object (as happens when a wire `params.notification` is a scalar). -/
def Event.from_notification (n : Json) : Except PyErr Event :=
  match n with
  | Json.obj fields => .ok (eventFromObj fields)
  | _ => .error .attributeError

/-- Word-character test of the regex class `\w` (ASCII range). -/
def isWordChar (c : Char) : Bool :=
  c.isAlpha || jsonDigit c || c = '_'

/-- A simple word token: non-empty text of word characters, the sender and
recipient names for which the AgentMessage convention is claimed. -/
def isWordToken (s : String) : Bool :=
  !s.toList.isEmpty && s.toList.all isWordChar

/-- An inter-agent message (`AgentMessage` dataclass). -/
structure AgentMessage where
  from_agent : String
  to_agent : String
  content : String
  timestamp : Option String := none
  deriving DecidableEq, Repr

/-- Literal `<MESSAGE from="` opening the tagged block. -/
def litFrom : List Char := ("<MESSAGE from=\"").toList

/-- Literal `" to="` between the two names. -/
def litTo : List Char := ("\" to=\"").toList

/-- Literal `">` plus newline ending the header. -/
def litHdrEnd : List Char := ("\">\n").toList

/-- Literal newline plus `</MESSAGE>` closing the block. -/
def litClose : List Char := ("\n</MESSAGE>").toList

/-- Method `AgentMessage.format`: the tagged-block text
`<MESSAGE from="X" to="Y">` newline body newline `</MESSAGE>`.
The timestamp field does not appear in the output. -/
def AgentMessage.format (m : AgentMessage) : List Char :=
  litFrom ++ m.from_agent.toList ++ litTo ++ m.to_agent.toList ++
    litHdrEnd ++ m.content.toList ++ litClose

/-- Anchored literal match: the input after `lit`, when `lit` starts it. -/
def stripLit (lit s : List Char) : Option (List Char) :=
  if lit.isPrefixOf s then some (s.drop lit.length) else none

/-- Index of the last occurrence of `sep` in the input (`none` when it
never occurs): the split the greedy `(.*)` of the parse regex commits to. -/
def lastOcc (sep : List Char) : List Char → Option Nat
  | [] => if sep.isEmpty then some 0 else none
  | c :: rest =>
    match lastOcc sep rest with
    | some i => some (i + 1)
    | none => if sep.isPrefixOf (c :: rest) then some 0 else none

/-- Classmethod `AgentMessage.parse`: the embedding of
`re.match(r..., text, re.DOTALL)` against the tagged-block pattern.
`re.match` anchors at the start only; `\w+` is maximal-munch here because
the pattern requires a quote (a non-word character) right after each
group; the greedy dotall group commits to the last occurrence of the
closing tag. A parsed message always carries `timestamp := none`. -/
def AgentMessage.parse (s : List Char) : Option AgentMessage :=
  match stripLit litFrom s with
  | none => none
  | some s1 =>
    let f := s1.takeWhile isWordChar
    if f.isEmpty then none
    else
      match stripLit litTo (s1.drop f.length) with
      | none => none
      | some s2 =>
        let t := s2.takeWhile isWordChar
        if t.isEmpty then none
        else
          match stripLit litHdrEnd (s2.drop t.length) with
          | none => none
          | some s3 =>
            match lastOcc litClose s3 with
            | none => none
            | some i =>
              some { from_agent := String.mk f, to_agent := String.mk t
                     content := String.mk (s3.take i), timestamp := none }

/-!
Embedding of `transport.py`.
-/

/-- SDK exception classes raised by the embedded code.
`sessionStartError` is the `SessionError` of a failed `DroidSession.start`
(SessionStartError in the spec); `py e` is an uncaught Python builtin
exception escaping the SDK. -/
inductive SDKErr where
  | sessionStartError : SDKErr
  | sessionNotAliveError : SDKErr
  | sessionNotFoundError : SDKErr
  | fifoError : SDKErr
  | py (e : PyErr) : SDKErr
  deriving DecidableEq, Repr

/-- A filesystem entry: a FIFO special file (tagged with the identity of
the underlying inode, so that a freshly recreated FIFO is distinguishable
from the object it replaced) or a regular file with its content. -/
inductive FSEntry where
  | fifo (gen : Nat) : FSEntry
  | file (content : List Char) : FSEntry
  deriving DecidableEq, Repr

/-- The filesystem namespace, as a partial map from path to entry. -/
def FS : Type := String → Option FSEntry

/-- Filesystem update at one path. -/
def FS.set (fs : FS) (p : String) (e : FSEntry) : FS :=
  fun q => if q = p then some e else fs q

/-- Filesystem removal at one path (`Path.unlink`). -/
def FS.remove (fs : FS) (p : String) : FS :=
  fun q => if q = p then none else fs q

/-- Command-endpoint path derived from the scope
(`f"/tmp/duo-\x7bpr_number\x7d-\x7bname\x7d"`). -/
def fifoPathOf (pr_number name : String) : String :=
  String.mk (("/tmp/duo-").toList ++ pr_number.toList ++ [('-' : Char)] ++
    name.toList)

/-- Log-endpoint path derived from the scope: the command path plus a
`.log` suffix. -/
def logPathOf (pr_number name : String) : String :=
  String.mk ((fifoPathOf pr_number name).toList ++ (".log").toList)

/-- The `FIFOTransport` dataclass: one session's channel pair plus the
recorded owning process id. -/
structure FIFOTransport where
  fifo_path : String
  log_path : String
  pid : Option Nat := none

/-- Classmethod `FIFOTransport.create`: derive both paths from the scope,
unlink any pre-existing command endpoint, make a fresh FIFO there
(`gen` is the identity of the new inode `os.mkfifo` allocates, a fresh
token from the environment), and truncate the log to empty. Returns the
new filesystem and the transport. -/
def FIFOTransport.create (fs : FS) (gen : Nat) (name pr_number : String) :
    FS × FIFOTransport :=
  let fifo_path := fifoPathOf pr_number name
  let log_path := logPathOf pr_number name
  let fs1 := if (fs fifo_path).isSome then fs.remove fifo_path else fs
  let fs2 := fs1.set fifo_path (.fifo gen)
  let fs3 := fs2.set log_path (.file [])
  (fs3, { fifo_path := fifo_path, log_path := log_path, pid := none })

/-- The raw text `"sessionId"` (quotes included) that
`wait_for_session_id` greps each log line for. -/
def sessionIdToken : List Char := ("\"sessionId\"").toList

/-- Outcome of one line of the `wait_for_session_id` scan. -/
inductive StepRes where
  | skip : StepRes
  | abort : StepRes
  | found (v : Json) : StepRes
  | raised (e : PyErr) : StepRes

/-- One line of the scan in `wait_for_session_id`: skip lines without the
quoted `sessionId` text; `json.loads` the line (a decode error aborts the
whole pass — it is caught outside the `for` loop); return
`data["result"]["sessionId"]` when both membership tests succeed. A
`KeyError` aborts the pass (caught); a `TypeError` from a membership test
or subscript on a non-object propagates (uncaught). -/
def lineStep (line : List Char) : StepRes :=
  if containsSub sessionIdToken line then
    match pyLoads line with
    | none => .abort
    | some data =>
      match pyContainsKey ("result") data with
      | .error e => .raised e
      | .ok false => .skip
      | .ok true =>
        match pySubscript data ("result") with
        | .error .keyError => .abort
        | .error e => .raised e
        | .ok r =>
          match pyContainsKey ("sessionId") r with
          | .error e => .raised e
          | .ok false => .skip
          | .ok true =>
            match pySubscript r ("sessionId") with
            | .error .keyError => .abort
            | .error e => .raised e
            | .ok v => .found v
  else .skip

/-- The scan of one poll of the log: first line whose step finds a value
wins; an aborted pass or an exhausted log yields `none` (so the poll loop
sleeps, repolls the same content, and finally times out); a raised
`TypeError` propagates. -/
def scan_log : List (List Char) → Except PyErr (Option Json)
  | [] => .ok none
  | line :: rest =>
    match lineStep line with
    | .skip => scan_log rest
    | .abort => .ok none
    | .found v => .ok (some v)
    | .raised e => .error e

/-- Python `content.split("\n")`: every maximal `\n`-free run, empty runs
included. -/
def splitLines : List Char → List (List Char)
  | [] => [[]]
  | c :: rest =>
    match splitLines rest with
    | [] => [[c]]
    | hd :: tl => if c = '\n' then [] :: hd :: tl else (c :: hd) :: tl

/-- Method `FIFOTransport.wait_for_session_id` on a log whose content is
stable over the polling window: `ok (some v)` when a scan finds `v`
(returned immediately), `ok none` when every poll comes up empty until the
timeout (the method returns `None`), `error` when a scan raises. Real time
is abstracted away: polling a fixed content is idempotent, so one scan
decides the loop. -/
def wait_for_session_id (content : List Char) : Except PyErr (Option Json) :=
  scan_log (splitLines content)

/-!
Embedding of `session.py`.
-/

/-- The `DroidSession` dataclass. -/
structure DroidSession where
  name : String
  model : String
  pr_number : String
  cwd : String
  session_id : Option Json := none
  transport : Option FIFOTransport := none

/-- Function `start_daemon`: create the channel pair for the scope, spawn
the detached bootstrap process, and record its pid on the transport.
`fresh` is the token the environment supplies for the new daemon's pid and
the new FIFO's inode identity. -/
def start_daemon (fs : FS) (fresh : Nat) (name pr_number : String) :
    FS × FIFOTransport :=
  let (fs1, tr) := FIFOTransport.create fs fresh name pr_number
  (fs1, { tr with pid := some fresh })

/-- Method `DroidSession.start` on the log content the bootstrap daemon
produces: attach the transport freshly created by `start_daemon`, wait
for the session identifier, and fail with the start error when the wait
returns `None` or a falsy identifier (`if not self.session_id`). On
success the updated session holds the identifier, which is returned. -/
def DroidSession.start (s : DroidSession) (fs : FS) (fresh : Nat)
    (content : List Char) : FS × Except SDKErr (DroidSession × Json) :=
  let (fs1, tr) := start_daemon fs fresh s.name s.pr_number
  let s1 := { s with transport := some tr }
  (fs1,
    match wait_for_session_id content with
    | .error e => .error (.py e)
    | .ok none => .error .sessionStartError
    | .ok (some v) =>
      if pyTruthy v then .ok ({ s1 with session_id := some v }, v)
      else .error .sessionStartError)

/-- Method `DroidSession.send`: with no transport attached, raise
`SessionNotAliveError`; otherwise build the user-message request (at clock
value `nowMs`) and hand it to the transport's FIFO write. The value is the
pair (transport written through, request written). -/
def DroidSession.send (s : DroidSession) (nowMs : Nat) (text : String) :
    Except SDKErr (FIFOTransport × JsonRpcRequest) :=
  match s.transport with
  | none => .error .sessionNotAliveError
  | some tr => .ok (tr, add_user_message_request nowMs text)

/-- Method `DroidSession.send_to`: wrap the content in the AgentMessage
block naming this session as sender, and delegate to `send`. -/
def DroidSession.send_to (s : DroidSession) (nowMs : Nat)
    (target content : String) : Except SDKErr (FIFOTransport × JsonRpcRequest) :=
  s.send nowMs (String.mk (AgentMessage.format
    { from_agent := s.name, to_agent := target, content := content }))

/-- Method `DroidSession.interrupt`: with no transport attached, return
without sending (not an error); otherwise send the interrupt request. -/
def DroidSession.interrupt (s : DroidSession) :
    Option (FIFOTransport × JsonRpcRequest) :=
  match s.transport with
  | none => none
  | some tr => some (tr, interrupt_session_request)

/-- Whitespace removed by Python `str.strip()`. -/
def pyIsSpace (c : Char) : Bool :=
  c = ' ' || c = '\t' || c = '\n' || c = '\r' || c = '\x0b' || c = '\x0c'

/-- Python `line.strip()`. -/
def pyStrip (cs : List Char) : List Char :=
  ((cs.dropWhile pyIsSpace).reverse.dropWhile pyIsSpace).reverse

/-- One log line of `DroidSession.stream_events`: strip it, parse it, and
yield a classified event exactly when it decodes to a notification whose
method is `droid.session_notification`; the inner payload is
`params.get("notification", \x7b\x7d)`. Any other or undecodable line
yields nothing. Uncaught exceptions (from `parse_message` on valid-JSON
non-object lines, or `.get`/`Event.from_notification` on non-object
params or payloads) propagate. -/
def stream_step (raw : List Char) : Except PyErr (Option Event) :=
  match parse_message (pyStrip raw) with
  | .error e => .error e
  | .ok (some (.notification nmsg)) =>
    match nmsg.method with
    | Json.str s =>
      if s = "droid.session_notification" then
        match pyGetD nmsg.params ("notification") (Json.obj []) with
        | .error e => .error e
        | .ok ntf =>
          match Event.from_notification ntf with
          | .error e => .error e
          | .ok ev => .ok (some ev)
      else .ok none
    | _ => .ok none
  | .ok _ => .ok none

/-- The events `stream_events` has yielded after consuming the given raw
log lines, in order (the stream itself is unbounded; this is its finite
trace on the lines read so far). -/
def streamEventsOf : List (List Char) → Except PyErr (List Event)
  | [] => .ok []
  | raw :: rest =>
    match stream_step raw with
    | .error e => .error e
    | .ok none => streamEventsOf rest
    | .ok (some ev) =>
      match streamEventsOf rest with
      | .error e => .error e
      | .ok evs => .ok (ev :: evs)

/-- Method `DroidSession.stream_events`: raise `SessionNotAliveError`
without a transport; otherwise read the log lines through
`read_log_lines()` — whose `start_pos` defaults to 0, the beginning of
the log — and republish classified events. -/
def DroidSession.stream_events (s : DroidSession)
    (logLines : List (List Char)) : Except SDKErr (List Event) :=
  match s.transport with
  | none => .error .sessionNotAliveError
  | some _ =>
    match streamEventsOf logLines with
    | .error e => .error (.py e)
    | .ok evs => .ok evs

/-!
Embedding of `swarm.py`.
-/

/-- Python dict lookup on the swarm registry (keys are unique). -/
def assocLookup {α : Type} : List (String × α) → String → Option α
  | [], _ => none
  | (k1, v) :: rest, k => if k1 = k then some v else assocLookup rest k

/-- Python dict assignment `d[k] = v` on an association list: replace the
first binding in place, else append. -/
def dictInsert (k : String) (v : DroidSession) :
    List (String × DroidSession) → List (String × DroidSession)
  | [] => [(k, v)]
  | (k1, v1) :: rest =>
    if k1 = k then (k, v) :: rest else (k1, v1) :: dictInsert k v rest

/-- The `Swarm` dataclass: scope fields plus the name-to-session
registry. -/
structure Swarm where
  pr_number : String
  repo : String := ""
  branch : String := ""
  base_branch : String := ""
  cwd : String
  sessions : List (String × DroidSession) := []

/-- Method `Swarm.get`: the registered session, or `SessionNotFoundError`
when the name is absent. -/
def Swarm.get (sw : Swarm) (name : String) : Except SDKErr DroidSession :=
  match assocLookup sw.sessions name with
  | none => .error .sessionNotFoundError
  | some s => .ok s

/-- Method `Swarm.send_to`: look up the recipient (the sender name is
never looked up), wrap the message in an AgentMessage block attributing
the sender by name, and delegate to the recipient's `send`. The registry
is returned unchanged on every path — the method never mutates it. -/
def Swarm.send_to (sw : Swarm) (from_agent to_agent message : String)
    (nowMs : Nat) : Swarm × Except SDKErr (FIFOTransport × JsonRpcRequest) :=
  match assocLookup sw.sessions to_agent with
  | none => (sw, .error .sessionNotFoundError)
  | some target =>
    (sw, target.send nowMs (String.mk (AgentMessage.format
      { from_agent := from_agent, to_agent := to_agent, content := message })))

/-- Method `Swarm.spawn`: construct a blank session scoped to the swarm,
start it (on the log content `content` the new bootstrap produces, with
`fresh` the new daemon's pid and FIFO identity), and register it under
`name` only when the start succeeded. `spawn` contains no call to any
session's `cleanup`: no process is signalled, and a replaced registry
entry's record is not modified — but the start's channel-pair creation
acts on the same derived scope paths. -/
def Swarm.spawn (sw : Swarm) (fs : FS) (name model : String) (fresh : Nat)
    (content : List Char) : FS × Swarm × Except SDKErr DroidSession :=
  let session : DroidSession :=
    { name := name, model := model, pr_number := sw.pr_number, cwd := sw.cwd }
  let r := session.start fs fresh content
  match r.2 with
  | .error e => (r.1, sw, .error e)
  | .ok (started, _) =>
    (r.1, { sw with sessions := dictInsert name started sw.sessions },
      .ok started)

/-- Concrete wire fixture: a session-notification line carrying an
assistant text delta, as in the spec's end-to-end scenario. -/
def sampleNotifLine : List Char :=
  ("\x7b\"type\":\"notification\",\"method\":\"droid.session_notification\",\"params\":\x7b\"notification\":\x7b\"type\":\"assistant_text_delta\",\"textDelta\":\"Hi\"\x7d\x7d\x7d").toList

/-- The classified event the sample notification line decodes to. -/
def sampleDeltaEvent : Event :=
  { type := .text_delta
    data := Json.obj [(("type"), Json.str ("assistant_text_delta")),
                      (("textDelta"), Json.str ("Hi"))] }

/-- Concrete session fixture with a channel pair attached. -/
def sampleLiveSession : DroidSession :=
  { name := "a", model := "m", pr_number := "42", cwd := "/w",
    transport := some { fifo_path := "/f", log_path := "/l" } }

/-- Concrete wire fixture: the response line of the spec's end-to-end
scenario, whose result mapping carries the identifier `sess-7`. -/
def sampleSessionLine : List Char :=
  ("\x7b\"kind\":\"response\",\"id\":\"init\",\"result\":\x7b\"sessionId\":\"sess-7\"\x7d\x7d").toList

/-- Concrete fixture: an already-running session registered in a swarm
at scope `(42, alice)`, owner of FIFO inode 1 and daemon pid 1. -/
def sampleOldSession : DroidSession :=
  { name := "alice", model := "m", pr_number := "42", cwd := "/w",
    session_id := some (Json.str ("sess-1")),
    transport := some { fifo_path := fifoPathOf ("42") ("alice"),
                        log_path := logPathOf ("42") ("alice"),
                        pid := some 1 } }

/-- Concrete fixture: a swarm holding `sampleOldSession` under `alice`. -/
def sampleSwarm : Swarm :=
  { pr_number := "42", cwd := "/w",
    sessions := [(("alice"), sampleOldSession)] }

/-- Concrete fixture: the filesystem while `sampleOldSession` runs — its
FIFO (inode 1) and a log with content at the scope's derived paths. -/
def sampleFS : FS := fun q =>
  if q = fifoPathOf ("42") ("alice") then some (.fifo 1)
  else if q = logPathOf ("42") ("alice") then some (.file (("OLD")).toList)
  else none

/-- The session a successful replacement spawn at scope `(42, alice)`
produces from `sampleSessionLine`, with fresh token 2. -/
def sampleNewSession : DroidSession :=
  { name := "alice", model := "m2", pr_number := "42", cwd := "/w",
    session_id := some (Json.str ("sess-7")),
    transport := some { fifo_path := fifoPathOf ("42") ("alice"),
                        log_path := logPathOf ("42") ("alice"),
                        pid := some 2 } }

/-!
Helper lemmas.
-/

/-- Rebuilding a string from its character list is the identity. -/
theorem string_mk_toList (s : String) : String.mk s.toList = s := by
  cases s
  rfl

/-- Stripping a literal off a text that starts with it leaves the rest. -/
theorem stripLit_append (lit r : List Char) :
    stripLit lit (lit ++ r) = some r := by
  have h : lit.isPrefixOf (lit ++ r) = true := by
    rw [List.isPrefixOf_iff_prefix]
    exact List.prefix_append lit r
  simp [stripLit, h]

/-- A maximal run of `p`-characters followed by a non-`p` character is
what `takeWhile` returns. -/
theorem takeWhile_append_stop (p : Char → Bool) (f : List Char) (c : Char)
    (r : List Char) (hf : ∀ x ∈ f, p x = true) (hc : p c = false) :
    (f ++ c :: r).takeWhile p = f := by
  induction f with
  | nil => simp [List.takeWhile_cons, hc]
  | cons a f ih =>
    have ha : p a = true := hf a (by simp)
    simp only [List.cons_append, List.takeWhile_cons, ha, if_true]
    rw [ih (fun x hx => hf x (by simp [hx]))]

/-- A prefix is no longer than the whole. -/
theorem isPrefixOf_length_le {sep s : List Char}
    (h : sep.isPrefixOf s = true) : sep.length ≤ s.length := by
  rw [List.isPrefixOf_iff_prefix] at h
  exact h.length_le

/-- No occurrence of `sep` fits in a strictly shorter text. -/
theorem lastOcc_none_short (sep : List Char) :
    ∀ s : List Char, s.length < sep.length → lastOcc sep s = none := by
  intro s
  induction s with
  | nil =>
    intro h
    have hne : sep.isEmpty = false := by
      cases sep
      · simp at h
      · rfl
    simp [lastOcc, hne]
  | cons c rest ih =>
    intro h
    simp only [List.length_cons] at h
    have h1 : rest.length < sep.length := by omega
    have h2 : sep.isPrefixOf (c :: rest) = false := by
      cases hx : sep.isPrefixOf (c :: rest) with
      | false => rfl
      | true =>
        have hl := isPrefixOf_length_le hx
        simp only [List.length_cons] at hl
        omega
    simp [lastOcc, ih h1, h2]

/-- In a text that ends with `sep` and whose earlier part is arbitrary,
the last occurrence of `sep` starts exactly where `sep` was appended:
later positions leave too little room. This is the split the greedy
dotall group of `AgentMessage.parse` commits to. -/
theorem lastOcc_append_close (sep : List Char) (hne : sep ≠ []) :
    ∀ c : List Char, lastOcc sep (c ++ sep) = some c.length := by
  intro c
  induction c with
  | nil =>
    cases sep with
    | nil => exact absurd rfl hne
    | cons a rest =>
      have h1 : lastOcc (a :: rest) rest = none :=
        lastOcc_none_short _ _ (by simp)
      have h2 : (a :: rest).isPrefixOf (a :: rest) = true := by
        rw [List.isPrefixOf_iff_prefix]
      simp [lastOcc, h1, h2]
  | cons x c ih =>
    simp [lastOcc, ih]

/-!
Claim C5 — the AgentMessage tagged-block convention round-trips.

The claim as frozen is false: `format` drops the timestamp field and
`parse` always reconstructs `timestamp := none`, so any message carrying
a timestamp fails `parse(format(m)) == m` even with word-token names and
a clean body. The round-trip does hold for every timestamp-free message
(the body restriction of the claim is kept as a hypothesis, although the
greedy parse makes it unnecessary).
-/

/-- C5 (amended): for a message whose sender and recipient are simple
word tokens, whose body does not contain the closing tag, and whose
timestamp is nil, `parse (format m) = some m`. -/
theorem agent_message_roundtrip (m : AgentMessage)
    (hf : isWordToken m.from_agent = true)
    (ht : isWordToken m.to_agent = true)
    (hb : containsSub litClose m.content.toList = false)
    (hts : m.timestamp = none) :
    AgentMessage.parse (AgentMessage.format m) = some m := by
  obtain ⟨hfne, hfall⟩ : m.from_agent.toList ≠ [] ∧
      ∀ x ∈ m.from_agent.toList, isWordChar x = true := by
    simpa [isWordToken, List.all_eq_true] using hf
  obtain ⟨htne, htall⟩ : m.to_agent.toList ≠ [] ∧
      ∀ x ∈ m.to_agent.toList, isWordChar x = true := by
    simpa [isWordToken, List.all_eq_true] using ht
  have e1 : AgentMessage.format m =
      litFrom ++ (m.from_agent.toList ++ (litTo ++ (m.to_agent.toList ++
        (litHdrEnd ++ (m.content.toList ++ litClose))))) := by
    simp [AgentMessage.format, List.append_assoc]
  have hq : isWordChar '"' = false := by decide
  have tw1 : List.takeWhile isWordChar (m.from_agent.toList ++
      (litTo ++ (m.to_agent.toList ++
        (litHdrEnd ++ (m.content.toList ++ litClose))))) =
      m.from_agent.toList := by
    rw [show litTo ++ (m.to_agent.toList ++
          (litHdrEnd ++ (m.content.toList ++ litClose))) =
        '"' :: ((" to=\"").toList ++ (m.to_agent.toList ++
          (litHdrEnd ++ (m.content.toList ++ litClose)))) from rfl]
    exact takeWhile_append_stop isWordChar _ _ _ hfall hq
  have tw2 : List.takeWhile isWordChar (m.to_agent.toList ++
      (litHdrEnd ++ (m.content.toList ++ litClose))) =
      m.to_agent.toList := by
    rw [show litHdrEnd ++ (m.content.toList ++ litClose) =
        '"' :: ((">\n").toList ++ (m.content.toList ++ litClose)) from rfl]
    exact takeWhile_append_stop isWordChar _ _ _ htall hq
  have hfe : m.from_agent.toList.isEmpty = false := by
    cases hx : m.from_agent.toList
    · exact absurd hx hfne
    · rfl
  have hte : m.to_agent.toList.isEmpty = false := by
    cases hx : m.to_agent.toList
    · exact absurd hx htne
    · rfl
  simp only [AgentMessage.parse, e1, stripLit_append]
  rw [tw1]
  simp only [hfe, Bool.false_eq_true, if_false, List.drop_left,
    stripLit_append]
  rw [tw2]
  simp only [hte, Bool.false_eq_true, if_false, List.drop_left,
    stripLit_append]
  rw [lastOcc_append_close litClose (by decide) m.content.toList]
  simp only [List.take_left, Option.some.injEq]
  cases m with
  | mk f t c ts =>
    simp only at hts
    simp [string_mk_toList, hts]

/-- C5 counterexample: the claim as frozen fails for a message that
carries a timestamp — names are word tokens and the body is clean, yet
`parse (format m)` returns the message with its timestamp erased, which
differs from `m`. -/
theorem agent_message_roundtrip_counterexample :
    (isWordToken ("a") = true ∧ isWordToken ("b") = true ∧
      containsSub litClose ("hi").toList = false) ∧
    AgentMessage.parse (AgentMessage.format
      { from_agent := "a", to_agent := "b", content := "hi",
        timestamp := some ("t") }) ≠
      some { from_agent := "a", to_agent := "b", content := "hi",
             timestamp := some ("t") } ∧
    AgentMessage.parse (AgentMessage.format
      { from_agent := "a", to_agent := "b", content := "hi",
        timestamp := some ("t") }) =
      some { from_agent := "a", to_agent := "b", content := "hi",
             timestamp := none } := by
  decide

/-- Enum lookup by value recovers each member from its wire value. -/
theorem eventTypeOfString_wire (k : EventType) :
    eventTypeOfString (EventType.wire k) = some k := by
  cases k <;> rfl

/-- A string outside the wire vocabulary makes the enum lookup raise
`ValueError` (return `none` in the embedding). -/
theorem eventTypeOfString_none (s : String)
    (h : ∀ k : EventType, s ≠ EventType.wire k) :
    eventTypeOfString s = none := by
  simp only [eventTypeOfString]
  rw [if_neg (show ¬(s = "session_initialized") from h .session_initialized),
    if_neg (show ¬(s = "session_loaded") from h .session_loaded),
    if_neg (show ¬(s = "droid_working_state_changed") from h .state_changed),
    if_neg (show ¬(s = "create_message") from h .message_created),
    if_neg (show ¬(s = "session_title_updated") from h .title_updated),
    if_neg (show ¬(s = "thinking_text_delta") from h .thinking_delta),
    if_neg (show ¬(s = "assistant_text_delta") from h .text_delta),
    if_neg (show ¬(s = "tool_call") from h .tool_call),
    if_neg (show ¬(s = "tool_result") from h .tool_result),
    if_neg (show ¬(s = "mcp_status_changed") from h .mcp_status),
    if_neg (show ¬(s = "complete") from h .complete),
    if_neg (show ¬(s = "error") from h .error),
    if_neg (show ¬(s = "unknown") from h .unknown)]

/-- C4: on every notification payload mapping, `Event.from_notification`
returns (never raises) an event that preserves the raw payload; its kind
is the member matching the `type` tag when the tag is a vocabulary value,
and the unknown kind for every other or missing tag. -/
theorem event_from_notification_spec (fields : List (String × Json)) :
    ∃ ev : Event, Event.from_notification (Json.obj fields) = .ok ev ∧
      ev.data = Json.obj fields ∧
      (∀ k : EventType,
        jLookup fields ("type") = some (Json.str (EventType.wire k)) →
        ev.type = k) ∧
      ((∀ k : EventType,
          jLookup fields ("type") ≠ some (Json.str (EventType.wire k))) →
        ev.type = .unknown) := by
  refine ⟨eventFromObj fields, rfl, rfl, ?_, ?_⟩
  · intro k hk
    simp [eventFromObj, jLookupD, hk, eventTypeOfString_wire]
  · intro h
    cases hx : jLookup fields ("type") with
    | none =>
      have hu : eventTypeOfString ("unknown") = some EventType.unknown := rfl
      simp [eventFromObj, jLookupD, hx, hu]
    | some t =>
      cases t with
      | str s =>
        have hs : ∀ k : EventType, s ≠ EventType.wire k := by
          intro k hk
          exact h k (by rw [hx, hk])
        simp [eventFromObj, jLookupD, hx, eventTypeOfString_none s hs]
      | null => simp [eventFromObj, jLookupD, hx]
      | bool b => simp [eventFromObj, jLookupD, hx]
      | num n => simp [eventFromObj, jLookupD, hx]
      | arr xs => simp [eventFromObj, jLookupD, hx]
      | obj fs => simp [eventFromObj, jLookupD, hx]

/-- C4 witness: classification at a concrete vocabulary payload. -/
theorem event_from_notification_spec_witness :
    ∃ ev : Event,
      Event.from_notification
        (Json.obj [(("type"), Json.str ("tool_call"))]) = .ok ev ∧
      ev.data = Json.obj [(("type"), Json.str ("tool_call"))] ∧
      ev.type = EventType.tool_call := by
  obtain ⟨ev, h1, h2, h3, -⟩ :=
    event_from_notification_spec [(("type"), Json.str ("tool_call"))]
  exact ⟨ev, h1, h2, h3 EventType.tool_call rfl⟩

/-- C2: `parse_message` is not total. On a line that is valid JSON but
not an object — so it has no discriminator at all — `data.get("type")`
raises an uncaught `AttributeError` instead of returning `None`: only
`json.JSONDecodeError` is caught. Syntactically invalid lines do return
`None` as the claim says. -/
theorem parse_message_raises_on_valid_json_nonobject :
    parse_message (("[]").toList) = .error PyErr.attributeError ∧
    parse_message (("42").toList) = .error PyErr.attributeError ∧
    parse_message (("not json").toList) = .ok none :=
  ⟨rfl, rfl, rfl⟩

/-- Value of each decimal digit character. -/
theorem digitChar_toNat (n : Nat) (h : n < 10) :
    (Nat.digitChar n).toNat = 48 + n := by
  interval_cases n <;> rfl

/-- Valuation of a digit string extended by one digit. -/
theorem decVal_append_digit (l : List Char) (c : Char) :
    decVal (l ++ [c]) = decVal l * 10 + (c.toNat - ('0').toNat) := by
  simp [decVal, List.foldl_append]

/-- The decimal printer is correct: valuation is a left inverse. -/
theorem decimalRepAux_val :
    ∀ fuel n : Nat, n < fuel → decVal (decimalRepAux fuel n) = n := by
  intro fuel
  induction fuel with
  | zero => intro n h; omega
  | succ fuel ih =>
    intro n h
    have h0 : ('0').toNat = 48 := rfl
    by_cases h10 : n < 10
    · rw [decimalRepAux, if_pos h10]
      simp only [decVal, List.foldl_cons, List.foldl_nil]
      rw [digitChar_toNat n h10, h0]
      omega
    · rw [decimalRepAux, if_neg h10, decVal_append_digit,
        ih (n / 10) (by omega), digitChar_toNat (n % 10) (by omega), h0]
      omega

/-- Decimal printing of naturals is injective. -/
theorem decimalRep_injective {a b : Nat} (h : decimalRep a = decimalRep b) :
    a = b :=
  calc a = decVal (decimalRep a) :=
        (decimalRepAux_val (a + 1) a (by omega)).symm
    _ = decVal (decimalRep b) := by rw [h]
    _ = b := decimalRepAux_val (b + 1) b (by omega)

/-- Distinct construction milliseconds give distinct default request
ids. -/
theorem defaultRequestId_injective {t1 t2 : Nat}
    (h : defaultRequestId t1 = defaultRequestId t2) : t1 = t2 := by
  have h2 := congrArg String.data h
  simp only [defaultRequestId] at h2
  exact decimalRep_injective (List.append_cancel_left h2)

/-- A default (clock-derived) request id starts with `req-` and so never
collides with any of the fixed lifecycle ids. -/
theorem defaultRequestId_ne_fixed (t : Nat) (s : String)
    (hs : s.data.head? ≠ some 'r') : defaultRequestId t ≠ s := by
  intro h
  apply hs
  rw [← h]
  rfl

/-- C3 (amended): correlation ids are unique across request classes, and
two user-message requests carry distinct ids whenever they are
constructed at distinct millisecond clock values — but not in general:
two constructions within one millisecond share the id (see the
counterexample). -/
theorem request_id_uniqueness (t1 t2 : Nat)
    (x1 x2 machine cwd sid : String) (am mo : Option String) :
    (t1 ≠ t2 →
      (add_user_message_request t1 x1).id ≠ (add_user_message_request t2 x2).id)
    ∧ ((initialize_session_request machine cwd).id ≠
         (load_session_request sid).id
       ∧ (initialize_session_request machine cwd).id ≠
         interrupt_session_request.id
       ∧ (initialize_session_request machine cwd).id ≠
         (update_session_settings_request am mo).id
       ∧ (load_session_request sid).id ≠ interrupt_session_request.id
       ∧ (load_session_request sid).id ≠
         (update_session_settings_request am mo).id
       ∧ interrupt_session_request.id ≠
         (update_session_settings_request am mo).id)
    ∧ ((add_user_message_request t1 x1).id ≠
         (initialize_session_request machine cwd).id
       ∧ (add_user_message_request t1 x1).id ≠ (load_session_request sid).id
       ∧ (add_user_message_request t1 x1).id ≠ interrupt_session_request.id
       ∧ (add_user_message_request t1 x1).id ≠
         (update_session_settings_request am mo).id) := by
  refine ⟨?_, ⟨?_, ?_, ?_, ?_, ?_, ?_⟩, ?_, ?_, ?_, ?_⟩
  · intro hne h
    exact hne (defaultRequestId_injective h)
  · exact (show ("init" : String) ≠ ("load") by decide)
  · exact (show ("init" : String) ≠ ("interrupt") by decide)
  · exact (show ("init" : String) ≠ ("settings") by decide)
  · exact (show ("load" : String) ≠ ("interrupt") by decide)
  · exact (show ("load" : String) ≠ ("settings") by decide)
  · exact (show ("interrupt" : String) ≠ ("settings") by decide)
  · exact defaultRequestId_ne_fixed t1 ("init") (by decide)
  · exact defaultRequestId_ne_fixed t1 ("load") (by decide)
  · exact defaultRequestId_ne_fixed t1 ("interrupt") (by decide)
  · exact defaultRequestId_ne_fixed t1 ("settings") (by decide)

/-- C3 counterexample: two distinct user-message requests constructed in
the same millisecond (well inside one session's lifetime) carry the same
correlation id, so request ids are not unique in general. -/
theorem request_id_collision :
    add_user_message_request 1000 ("a") ≠ add_user_message_request 1000 ("b")
    ∧ (add_user_message_request 1000 ("a")).id =
      (add_user_message_request 1000 ("b")).id := by
  constructor
  · intro h
    have h2 := congrArg (fun r => r.params) h
    simp only [add_user_message_request] at h2
    obtain ⟨h3, -⟩ := List.cons.inj h2
    obtain ⟨-, h4⟩ := Prod.mk.inj h3
    injection h4 with h5
    exact absurd h5 (by decide)
  · rfl

/-- C3 witness: the amended uniqueness at concrete clock values. -/
theorem request_id_uniqueness_witness :
    (add_user_message_request 1 ("x")).id ≠
      (add_user_message_request 2 ("x")).id ∧
    (add_user_message_request 1 ("x")).id ≠ interrupt_session_request.id :=
  ⟨(request_id_uniqueness 1 2 ("x") ("x") ("m") ("/w") ("s") none none).1
      (by decide),
   (request_id_uniqueness 1 2 ("x") ("x") ("m") ("/w") ("s") none
      none).2.2.2.2.1⟩

/-- Lines that skip do not affect the rest of a scan. -/
theorem scan_log_skip_prefix (pre : List (List Char))
    (rest : List (List Char)) (h : ∀ l ∈ pre, lineStep l = .skip) :
    scan_log (pre ++ rest) = scan_log rest := by
  induction pre with
  | nil => rfl
  | cons a pre ih =>
    have ha : lineStep a = .skip := h a (by simp)
    simp only [List.cons_append, scan_log, ha]
    exact ih (fun l hl => h l (by simp [hl]))

/-- A scan over lines that all skip comes up empty. -/
theorem scan_log_all_skip (ls : List (List Char))
    (h : ∀ l ∈ ls, lineStep l = .skip) : scan_log ls = .ok none := by
  induction ls with
  | nil => rfl
  | cons a ls ih =>
    have ha : lineStep a = .skip := h a (by simp)
    simp only [scan_log, ha]
    exact ih (fun l hl => h l (by simp [hl]))

/-- C1 (amended): when the lines before some log line all fall through
the scan cleanly and that line is a JSON object whose `result` mapping
carries a non-falsy `sessionId`, `start()` returns that identifier; and
when every line of the log falls through cleanly (in particular when no
line mentions a `sessionId` at all), `start()` fails with the session
start error after the timeout. The provisos are necessary: an earlier
line that merely contains the quoted text `sessionId` but is not valid
JSON aborts every scan pass, and the identifier must be truthy — see the
counterexample. -/
theorem session_start_spec (s : DroidSession) (fs : FS) (fresh : Nat)
    (content : List Char) :
    (∀ pre line post v,
      splitLines content = pre ++ line :: post →
      (∀ l ∈ pre, lineStep l = .skip) →
      lineStep line = .found v →
      pyTruthy v = true →
      ∃ s1, (s.start fs fresh content).2 = .ok (s1, v))
    ∧ ((∀ l ∈ splitLines content, lineStep l = .skip) →
      (s.start fs fresh content).2 = .error .sessionStartError) := by
  constructor
  · intro pre line post v hsplit hpre hline htr
    have hw : wait_for_session_id content = .ok (some v) := by
      rw [wait_for_session_id, hsplit, scan_log_skip_prefix pre _ hpre]
      simp [scan_log, hline]
    refine ⟨{ s with
        session_id := some v
        transport := some { fifo_path := fifoPathOf s.pr_number s.name
                            log_path := logPathOf s.pr_number s.name
                            pid := some fresh } }, ?_⟩
    simp [DroidSession.start, start_daemon, FIFOTransport.create, hw, htr]
  · intro hall
    have hw : wait_for_session_id content = .ok none :=
      scan_log_all_skip _ hall
    simp [DroidSession.start, start_daemon, hw]

/-- C1 counterexample: a log whose second line is exactly the JSON
response object of the claim (its `result` carries `sessionId` value
`sess-7`), preceded by one line that is not valid JSON but contains the
quoted text `sessionId`. The claim says `start()` returns `sess-7`; the
code aborts every scan pass at the first line, times out, and raises the
session start error instead. -/
theorem session_start_poisoned :
    pyLoads (("\x7b\"kind\":\"response\",\"id\":\"init\",\"result\":\x7b\"sessionId\":\"sess-7\"\x7d\x7d").toList) =
      some (Json.obj [(("kind"), Json.str ("response")),
        (("id"), Json.str ("init")),
        (("result"), Json.obj [(("sessionId"), Json.str ("sess-7"))])])
    ∧ (DroidSession.start
        { name := "alice", model := "m", pr_number := "42", cwd := "/w" }
        (fun _ => none) 7
        (("x\"sessionId\"x\n\x7b\"kind\":\"response\",\"id\":\"init\",\"result\":\x7b\"sessionId\":\"sess-7\"\x7d\x7d").toList)).2 =
      .error .sessionStartError :=
  ⟨rfl, rfl⟩

/-- C1 witness: the amended positive half at the end-to-end scenario
line — the log holds exactly the response object and `start()` returns
`sess-7`. -/
theorem session_start_spec_witness :
    ∃ s1, (DroidSession.start
      { name := "alice", model := "m", pr_number := "42", cwd := "/w" }
      (fun _ => none) 7
      (("\x7b\"kind\":\"response\",\"id\":\"init\",\"result\":\x7b\"sessionId\":\"sess-7\"\x7d\x7d").toList)).2 =
      .ok (s1, Json.str ("sess-7")) :=
  (session_start_spec
    { name := "alice", model := "m", pr_number := "42", cwd := "/w" }
    (fun _ => none) 7 _).1
    [] _ [] (Json.str ("sess-7")) rfl (by simp) rfl rfl

/-- The two derived endpoint paths of one scope differ. -/
theorem fifoPath_ne_logPath (pr name : String) :
    fifoPathOf pr name ≠ logPathOf pr name := by
  intro h
  have h2 := congrArg String.data h
  have e2 : (logPathOf pr name).data =
      (fifoPathOf pr name).data ++ (".log").toList := rfl
  rw [e2] at h2
  have h3 := congrArg List.length h2
  have e3 : ((".log").toList).length = 4 := rfl
  rw [List.length_append, e3] at h3
  omega

/-- After `create`, the derived command path holds the fresh FIFO. -/
theorem create_at_fifo (f : FS) (g : Nat) (name pr : String) :
    (FIFOTransport.create f g name pr).1 (fifoPathOf pr name) =
      some (.fifo g) := by
  simp [FIFOTransport.create, FS.set, fifoPath_ne_logPath pr name]

/-- After `create`, the derived log path holds an empty regular file. -/
theorem create_at_log (f : FS) (g : Nat) (name pr : String) :
    (FIFOTransport.create f g name pr).1 (logPathOf pr name) =
      some (.file []) := by
  simp [FIFOTransport.create, FS.set]

/-- `create` touches nothing outside the two derived paths. -/
theorem create_at_other (f : FS) (g : Nat) (name pr : String) (q : String)
    (hq1 : q ≠ fifoPathOf pr name) (hq2 : q ≠ logPathOf pr name) :
    (FIFOTransport.create f g name pr).1 q = f q := by
  by_cases hs : (f (fifoPathOf pr name)).isSome <;>
    simp [FIFOTransport.create, FS.set, FS.remove, hq1, hq2, hs]

/-- C6: channel-pair creation is destructive-idempotent. One `create`
leaves the fresh FIFO as the sole entry at the derived command path (a
pre-existing entry is gone) and an empty log at the derived log path,
touches no other path, and a second `create` on the same scope yields
exactly the state of a single `create` (with the second call's fresh
FIFO). -/
theorem fifo_create_spec (fs : FS) (gen : Nat) (name pr : String) :
    ((FIFOTransport.create fs gen name pr).1 (fifoPathOf pr name) =
      some (.fifo gen))
    ∧ ((FIFOTransport.create fs gen name pr).1 (logPathOf pr name) =
      some (.file []))
    ∧ (∀ q, q ≠ fifoPathOf pr name → q ≠ logPathOf pr name →
      (FIFOTransport.create fs gen name pr).1 q = fs q)
    ∧ (∀ gen2, FIFOTransport.create
        ((FIFOTransport.create fs gen name pr).1) gen2 name pr =
        FIFOTransport.create fs gen2 name pr) := by
  refine ⟨create_at_fifo fs gen name pr, create_at_log fs gen name pr,
    create_at_other fs gen name pr, ?_⟩
  intro gen2
  have hfst : (FIFOTransport.create
      ((FIFOTransport.create fs gen name pr).1) gen2 name pr).1 =
      (FIFOTransport.create fs gen2 name pr).1 := by
    funext q
    by_cases hq1 : q = fifoPathOf pr name
    · rw [hq1, create_at_fifo, create_at_fifo]
    · by_cases hq2 : q = logPathOf pr name
      · rw [hq2, create_at_log, create_at_log]
      · rw [create_at_other _ _ _ _ q hq1 hq2,
          create_at_other _ _ _ _ q hq1 hq2,
          create_at_other _ _ _ _ q hq1 hq2]
  exact Prod.ext hfst rfl

/-- C6 witness: create on an empty filesystem at scope `(42, alice)`. -/
theorem fifo_create_spec_witness :
    ((FIFOTransport.create (fun _ => none) 1 ("alice") ("42")).1
      (fifoPathOf ("42") ("alice")) = some (.fifo 1))
    ∧ ((FIFOTransport.create (fun _ => none) 1 ("alice") ("42")).1
      ("/x") = none) :=
  ⟨(fifo_create_spec (fun _ => none) 1 ("alice") ("42")).1,
   (fifo_create_spec (fun _ => none) 1 ("alice") ("42")).2.2.1 ("/x")
     (by decide) (by decide)⟩

/-- C7: with no channel pair attached (never started or cleaned up),
`send` fails with `SessionNotAliveError` while `interrupt` is a silent
no-op that sends nothing; with a channel pair attached, `send` encodes
the user-message call and hands it to that channel. -/
theorem session_send_interrupt_spec (s : DroidSession) (nowMs : Nat)
    (text : String) :
    (s.transport = none →
      s.send nowMs text = .error .sessionNotAliveError ∧
      s.interrupt = none)
    ∧ (∀ tr, s.transport = some tr →
      s.send nowMs text = .ok (tr, add_user_message_request nowMs text) ∧
      s.interrupt = some (tr, interrupt_session_request) ∧
      (add_user_message_request nowMs text).method =
        "droid.add_user_message" ∧
      (add_user_message_request nowMs text).params =
        [(("text"), Json.str text)]) := by
  constructor
  · intro h
    exact ⟨by simp [DroidSession.send, h], by simp [DroidSession.interrupt, h]⟩
  · intro tr h
    exact ⟨by simp [DroidSession.send, h], by simp [DroidSession.interrupt, h],
      rfl, rfl⟩

/-- C7 witness: a never-started session and a started one. -/
theorem session_send_interrupt_spec_witness :
    (DroidSession.send
      { name := "a", model := "m", pr_number := "42", cwd := "/w" } 5 ("hi") =
      .error .sessionNotAliveError)
    ∧ (DroidSession.interrupt
      { name := "a", model := "m", pr_number := "42", cwd := "/w" } = none)
    ∧ (DroidSession.send
      { name := "a", model := "m", pr_number := "42", cwd := "/w",
        transport := some { fifo_path := "/f", log_path := "/l" } } 5 ("hi") =
      .ok ({ fifo_path := "/f", log_path := "/l" },
        add_user_message_request 5 ("hi"))) :=
  ⟨((session_send_interrupt_spec
      { name := "a", model := "m", pr_number := "42", cwd := "/w" } 5
      ("hi")).1 rfl).1,
   ((session_send_interrupt_spec
      { name := "a", model := "m", pr_number := "42", cwd := "/w" } 5
      ("hi")).1 rfl).2,
   ((session_send_interrupt_spec
      { name := "a", model := "m", pr_number := "42", cwd := "/w",
        transport := some { fifo_path := "/f", log_path := "/l" } } 5
      ("hi")).2 { fifo_path := "/f", log_path := "/l" } rfl).1⟩

/-- The event trace of a log is the concatenation of the traces of its
parts (when bothscan cleanly). -/
theorem streamEventsOf_append (pre post : List (List Char))
    (evs1 evs2 : List Event) (h1 : streamEventsOf pre = .ok evs1)
    (h2 : streamEventsOf post = .ok evs2) :
    streamEventsOf (pre ++ post) = .ok (evs1 ++ evs2) := by
  induction pre generalizing evs1 with
  | nil =>
    simp only [streamEventsOf] at h1
    cases h1
    simpa using h2
  | cons a pre ih =>
    simp only [streamEventsOf, List.cons_append] at h1 ⊢
    cases hs : stream_step a with
    | error e => rw [hs] at h1; cases h1
    | ok o =>
      rw [hs] at h1
      cases o with
      | none => exact ih evs1 h1
      | some ev =>
        cases hp : streamEventsOf pre with
        | error e => rw [hp] at h1; cases h1
        | ok evs =>
          rw [hp] at h1
          cases h1
          simp [ih evs hp]

/-- C8 (amended): `stream_events` reads the log from position 0, the
beginning of the file (`read_log_lines` is called with its default
`start_pos`), so lines already present when the stream is opened are
processed exactly like lines appended afterwards: every cleanly-decoding
session-notification line contributes its classified event, in log
order, and every other cleanly-decoding line contributes nothing. -/
theorem stream_events_from_start (s : DroidSession) (tr : FIFOTransport)
    (pre post : List (List Char)) (evs1 evs2 : List Event)
    (htr : s.transport = some tr)
    (h1 : streamEventsOf pre = .ok evs1)
    (h2 : streamEventsOf post = .ok evs2) :
    s.stream_events (pre ++ post) = .ok (evs1 ++ evs2)
    ∧ (∀ raw ev, stream_step raw = .ok (some ev) →
        streamEventsOf [raw] = .ok [ev])
    ∧ (∀ raw, stream_step raw = .ok none → streamEventsOf [raw] = .ok []) := by
  refine ⟨?_, ?_, ?_⟩
  · simp [DroidSession.stream_events, htr,
      streamEventsOf_append pre post evs1 evs2 h1 h2]
  · intro raw ev h
    simp [streamEventsOf, h]
  · intro raw h
    simp [streamEventsOf, h]

set_option maxRecDepth 8192 in
/-- C8 counterexample: a session-notification line already present in
the log before the stream is opened does yield its event — the claim
says lines present before the call produce no event, but the stream
starts at position 0, not at the current end of the log. -/
theorem stream_events_preexisting_line :
    DroidSession.stream_events sampleLiveSession [sampleNotifLine] =
      .ok [sampleDeltaEvent]
    ∧ DroidSession.stream_events sampleLiveSession [sampleNotifLine] ≠
      .ok ([] : List Event) := by
  have h1 : DroidSession.stream_events sampleLiveSession [sampleNotifLine] =
      .ok [sampleDeltaEvent] := rfl
  refine ⟨h1, fun h => ?_⟩
  exact absurd (Except.ok.inj (h1.symm.trans h)) (List.cons_ne_nil _ _)

set_option maxRecDepth 8192 in
/-- C8 witness: the amended statement at a concrete log — one
pre-existing notification line followed by one blank line appended
later; the stream yields exactly the pre-existing line's event. -/
theorem stream_events_from_start_witness :
    DroidSession.stream_events sampleLiveSession
      ([sampleNotifLine] ++ [[]]) = .ok ([sampleDeltaEvent] ++ []) :=
  (stream_events_from_start sampleLiveSession
    { fifo_path := "/f", log_path := "/l" } [sampleNotifLine] [[]]
    [sampleDeltaEvent] [] rfl rfl rfl).1

/-- C9: for a name missing from the registry, `get` fails with
`SessionNotFoundError` and `send_to` fails the same way; `send_to` never
mutates the registry on any path, and its success depends only on the
recipient — the sender name is never looked up, so an unregistered
sender can address any registered recipient. -/
theorem swarm_missing_spec (sw : Swarm) (name from_agent text : String)
    (nowMs : Nat) :
    (assocLookup sw.sessions name = none →
      sw.get name = .error .sessionNotFoundError ∧
      Swarm.send_to sw from_agent name text nowMs =
        (sw, .error .sessionNotFoundError))
    ∧ (∀ target tr, assocLookup sw.sessions name = some target →
        target.transport = some tr →
        Swarm.send_to sw from_agent name text nowMs =
          (sw, .ok (tr, add_user_message_request nowMs
            (String.mk (AgentMessage.format
              { from_agent := from_agent, to_agent := name,
                content := text })))))
    ∧ (Swarm.send_to sw from_agent name text nowMs).1 = sw := by
  refine ⟨?_, ?_, ?_⟩
  · intro h
    exact ⟨by simp [Swarm.get, h], by simp [Swarm.send_to, h]⟩
  · intro target tr h htr
    simp [Swarm.send_to, h, DroidSession.send, htr]
  · cases h : assocLookup sw.sessions name <;> simp [Swarm.send_to, h]

/-- C9 witness: a one-entry registry, a missing name and an unregistered
sender addressing the registered recipient. -/
theorem swarm_missing_spec_witness :
    (Swarm.get
      { pr_number := "42", cwd := "/w",
        sessions := [(("bob"),
          { name := "bob", model := "m", pr_number := "42", cwd := "/w",
            transport := some { fifo_path := "/f", log_path := "/l" } })] }
      ("missing") = .error .sessionNotFoundError)
    ∧ (Swarm.send_to
      { pr_number := "42", cwd := "/w",
        sessions := [(("bob"),
          { name := "bob", model := "m", pr_number := "42", cwd := "/w",
            transport := some { fifo_path := "/f", log_path := "/l" } })] }
      ("ghost") ("bob") ("hi") 5).2 =
      .ok ({ fifo_path := "/f", log_path := "/l" },
        add_user_message_request 5
          (String.mk (AgentMessage.format
            { from_agent := "ghost", to_agent := "bob", content := "hi" }))) := by
  constructor
  · exact ((swarm_missing_spec
      { pr_number := "42", cwd := "/w",
        sessions := [(("bob"),
          { name := "bob", model := "m", pr_number := "42", cwd := "/w",
            transport := some { fifo_path := "/f", log_path := "/l" } })] }
      ("missing") ("ghost") ("hi") 5).1 rfl).1
  · rw [((swarm_missing_spec
      { pr_number := "42", cwd := "/w",
        sessions := [(("bob"),
          { name := "bob", model := "m", pr_number := "42", cwd := "/w",
            transport := some { fifo_path := "/f", log_path := "/l" } })] }
      ("bob") ("ghost") ("hi") 5).2.1
      { name := "bob", model := "m", pr_number := "42", cwd := "/w",
        transport := some { fifo_path := "/f", log_path := "/l" } }
      { fifo_path := "/f", log_path := "/l" } rfl rfl)]

/-- Assigning a key in the registry makes it map to the new value. -/
theorem assocLookup_dictInsert_self (k : String) (v : DroidSession)
    (l : List (String × DroidSession)) :
    assocLookup (dictInsert k v l) k = some v := by
  induction l with
  | nil => simp [dictInsert, assocLookup]
  | cons a l ih =>
    obtain ⟨k1, v1⟩ := a
    by_cases hk : k1 = k
    · simp [dictInsert, hk, assocLookup]
    · simp [dictInsert, hk, assocLookup, ih]

/-- Assigning a key leaves every other key's binding unchanged. -/
theorem assocLookup_dictInsert_other (k : String) (v : DroidSession)
    (l : List (String × DroidSession)) (k2 : String) (h : k2 ≠ k) :
    assocLookup (dictInsert k v l) k2 = assocLookup l k2 := by
  induction l with
  | nil => simp [dictInsert, assocLookup, Ne.symm h]
  | cons a l ih =>
    obtain ⟨k1, v1⟩ := a
    by_cases hk : k1 = k
    · subst hk
      simp [dictInsert, assocLookup, Ne.symm h]
    · simp [dictInsert, hk, assocLookup, ih]

/-- C10 (amended): a successful `spawn` under an already-used name
replaces that registry entry with the new session — the new session is
looked up under the name, every other binding is untouched, and the old
record itself is never modified or cleaned up (`spawn` contains no
cleanup call) — and registration happens only after the start succeeds:
a failed start leaves the registry exactly as it was. But the spawn's
channel-pair creation acts on the same derived scope paths, so the old
session's FIFO is replaced by a fresh one and the shared log is
truncated (see the counterexample). -/
theorem swarm_spawn_spec (sw : Swarm) (fs : FS) (name model : String)
    (fresh : Nat) (content : List Char) :
    (∀ started v,
      (DroidSession.start
        { name := name, model := model, pr_number := sw.pr_number,
          cwd := sw.cwd } fs fresh content).2 = .ok (started, v) →
      Swarm.spawn sw fs name model fresh content =
        ((DroidSession.start
          { name := name, model := model, pr_number := sw.pr_number,
            cwd := sw.cwd } fs fresh content).1,
         { sw with sessions := dictInsert name started sw.sessions },
         .ok started)
      ∧ assocLookup (dictInsert name started sw.sessions) name = some started
      ∧ ∀ k, k ≠ name →
          assocLookup (dictInsert name started sw.sessions) k =
            assocLookup sw.sessions k)
    ∧ (∀ e,
      (DroidSession.start
        { name := name, model := model, pr_number := sw.pr_number,
          cwd := sw.cwd } fs fresh content).2 = .error e →
      Swarm.spawn sw fs name model fresh content =
        ((DroidSession.start
          { name := name, model := model, pr_number := sw.pr_number,
            cwd := sw.cwd } fs fresh content).1, sw, .error e))
    ∧ ((Swarm.spawn sw fs name model fresh content).1
        (fifoPathOf sw.pr_number name) = some (.fifo fresh)
      ∧ (Swarm.spawn sw fs name model fresh content).1
        (logPathOf sw.pr_number name) = some (.file [])) := by
  have hstart : (DroidSession.start
      { name := name, model := model, pr_number := sw.pr_number,
        cwd := sw.cwd } fs fresh content).1 =
      (FIFOTransport.create fs fresh name sw.pr_number).1 := rfl
  have hfs : (Swarm.spawn sw fs name model fresh content).1 =
      (FIFOTransport.create fs fresh name sw.pr_number).1 := by
    cases hr : (DroidSession.start
      { name := name, model := model, pr_number := sw.pr_number,
        cwd := sw.cwd } fs fresh content).2 with
    | error e => simp [Swarm.spawn, hr, hstart]
    | ok p =>
      obtain ⟨started, v⟩ := p
      simp [Swarm.spawn, hr, hstart]
  refine ⟨?_, ?_, ?_⟩
  · intro started v h
    exact ⟨by simp [Swarm.spawn, h],
      assocLookup_dictInsert_self name started sw.sessions,
      fun k hk => assocLookup_dictInsert_other name started sw.sessions k hk⟩
  · intro e h
    simp [Swarm.spawn, h]
  · rw [hfs]
    exact ⟨create_at_fifo fs fresh name sw.pr_number,
      create_at_log fs fresh name sw.pr_number⟩

set_option maxRecDepth 8192 in
/-- C10 counterexample: a concrete replacement spawn at the occupied
scope `(42, alice)`. Before the spawn the old session's FIFO (inode 1)
and its log content exist; the spawn succeeds, yet afterwards the
derived command path holds a different, fresh FIFO (inode 2) and the
log has been truncated — so the old session's FIFO did not remain live,
contrary to the claim. -/
theorem swarm_spawn_shared_scope :
    sampleFS (fifoPathOf ("42") ("alice")) = some (.fifo 1)
    ∧ sampleFS (logPathOf ("42") ("alice")) =
        some (.file (("OLD")).toList)
    ∧ (Swarm.spawn sampleSwarm sampleFS ("alice") ("m2") 2
        sampleSessionLine).2.2 = .ok sampleNewSession
    ∧ (Swarm.spawn sampleSwarm sampleFS ("alice") ("m2") 2
        sampleSessionLine).1 (fifoPathOf ("42") ("alice")) =
        some (.fifo 2)
    ∧ (Swarm.spawn sampleSwarm sampleFS ("alice") ("m2") 2
        sampleSessionLine).1 (logPathOf ("42") ("alice")) =
        some (.file [])
    ∧ (FSEntry.fifo 2) ≠ (FSEntry.fifo 1) :=
  ⟨rfl, rfl, rfl, rfl, rfl, by decide⟩

set_option maxRecDepth 8192 in
/-- C10 witness: the amended statement at the concrete replacement
spawn — the new session is registered under the name in place of the
old one. -/
theorem swarm_spawn_spec_witness :
    Swarm.spawn sampleSwarm sampleFS ("alice") ("m2") 2 sampleSessionLine =
      ((DroidSession.start
        { name := "alice", model := "m2", pr_number := "42", cwd := "/w" }
        sampleFS 2 sampleSessionLine).1,
       { sampleSwarm with
           sessions :=
             dictInsert ("alice") sampleNewSession sampleSwarm.sessions },
       .ok sampleNewSession)
    ∧ assocLookup
        (dictInsert ("alice") sampleNewSession sampleSwarm.sessions)
        ("alice") = some sampleNewSession :=
  ⟨((swarm_spawn_spec sampleSwarm sampleFS ("alice") ("m2") 2
      sampleSessionLine).1 sampleNewSession (Json.str ("sess-7")) rfl).1,
   ((swarm_spawn_spec sampleSwarm sampleFS ("alice") ("m2") 2
      sampleSessionLine).1 sampleNewSession (Json.str ("sess-7")) rfl).2.1⟩

/-- C5 witness: the amended round-trip at a concrete message. -/
theorem agent_message_roundtrip_witness :
    AgentMessage.parse (AgentMessage.format
      { from_agent := "opus", to_agent := "orchestrator",
        content := "Review complete", timestamp := none }) =
      some { from_agent := "opus", to_agent := "orchestrator",
             content := "Review complete", timestamp := none } :=
  agent_message_roundtrip _ (by decide) (by decide) (by decide) rfl

end DroidSDK
